import Mathlib

/-!
Shallow embedding of the checkout pipeline in `src/src/pages/Payment.tsx`
(component `Payment`, mutation `createOrder`): JavaScript truthiness helpers,
the candidate-item shape, the zod payment validators, the pre-reconciliation
total, the catalog reconciler, and the three-step persistence pipeline with
an explicit database state and a trace of the persistence calls issued.
-/

namespace Vastravedh

/-- JS truthiness of an optional string: `undefined`/`null` and `""` are falsy. -/
def strFalsy : Option String → Bool
  | none => true
  | some s => s == ""

/-- JS `a || b` on optional string values (`item.product_id || item.id`). -/
def jsOrStr (a b : Option String) : Option String :=
  if strFalsy a then b else a

/-- JS `a || d` on an optional number: `undefined`/`null` and `0` fall through
to the default (`item.price || ... || 0`, `item.quantity || 1`,
`buyNowState.quantity || 1`). -/
def jsOrNum (a : Option Int) (d : Int) : Int :=
  match a with
  | none => d
  | some n => if n = 0 then d else n

/-- The nested `products` row selected by `.select('*, products(*)')`:
only its `price` is read by the pipeline (`item.products?.price`). -/
structure ProductRef where
  price : Option Int
  deriving DecidableEq, Repr

/-- One entry of `itemsForPayment`: either a cart row joined with its product
(fields `product_id`, `quantity`, nested `products`) or a spread buy-now
product (fields `id`, `price`). Every field the pipeline reads is optional,
matching the mixed, partially trusted shapes the source tolerates. -/
structure Item where
  product_id : Option String
  id : Option String
  price : Option Int
  products : Option ProductRef
  quantity : Option Int
  deriving DecidableEq, Repr

/-- A product passed through navigation state for the buy-now flow
(`buyNowState.product`); the pipeline reads its `id` and `price`. -/
structure Product where
  id : Option String
  price : Option Int
  deriving DecidableEq, Repr

/-- `const buyNowQuantity = buyNowState.quantity || 1` (line 39). -/
def buyNowQuantity (q : Option Int) : Int := jsOrNum q 1

/-- `{ ...buyNowProduct, quantity: buyNowQuantity }` (line 69): the spread
product carries `id` and `price`; `product_id` and `products` are absent. -/
def mkBuyNowItem (p : Product) (q : Option Int) : Item :=
  ⟨none, p.id, p.price, none, some (buyNowQuantity q)⟩

/-- `itemsForPayment` (lines 68-70): a singleton built from the buy-now
product, or the joined cart rows (`cartItems || []`). -/
def itemsForPayment (isBuyNow : Bool) (p : Product) (q : Option Int)
    (cartItems : List Item) : List Item :=
  if isBuyNow then [mkBuyNowItem p q] else cartItems

/-- `item.price || item.products?.price || 0` (lines 73 and 126). -/
def itemUnitPrice (item : Item) : Int :=
  jsOrNum item.price (jsOrNum (item.products.bind ProductRef.price) 0)

/-- `item.quantity || 1` (line 73). -/
def itemQty (item : Item) : Int := jsOrNum item.quantity 1

/-- `itemsForPayment.reduce((sum, item) => sum + (item.price ||
item.products?.price || 0) * (item.quantity || 1), 0)` (line 73). -/
def total (items : List Item) : Int :=
  items.foldl (fun sum item => sum + itemUnitPrice item * itemQty item) 0

/-! ### Payment validators (zod schemas, lines 15-27) -/

/-- The fixed bank list rendered in the net-banking `Select` (lines 15-18). -/
def banks : List String :=
  ["State Bank of India", "HDFC Bank", "ICICI Bank", "Axis Bank",
   "Kotak Mahindra Bank", "Punjab National Bank", "Bank of Baroda",
   "Canara Bank", "Union Bank of India", "Bank of India"]

/-- JS `\w` without the unicode flag: `[A-Za-z0-9_]`. -/
def isWordChar (c : Char) : Bool := c.isAlpha || c.isDigit || c == '_'

/-- The character class `[\w.-]` of the UPI regex. -/
def upiClassChar (c : Char) : Bool := isWordChar c || c == '.' || c == '-'

/-- Matcher for `/^[\w.-]+@[\w.-]+$/` (line 21). Because `[\w.-]` excludes
`@`, the greedy local part is exactly the maximal class-character run, so a
deterministic take-while matcher is equivalent to the regex. -/
def upiMatch (cs : List Char) : Bool :=
  match cs.dropWhile upiClassChar with
  | '@' :: r => !(cs.takeWhile upiClassChar).isEmpty && !r.isEmpty && r.all upiClassChar
  | _ => false

/-- `upiSchema.parse({ upiId })`: `none` on success, the zod message
otherwise (surfaced by `onError` via `error.errors[0].message`). -/
def upiValidate (upiId : String) : Option String :=
  if upiMatch upiId.toList then none else some "Invalid UPI ID format"

/-- The card-number input handler `e.target.value.replace(/\s/g, '')`
(line 249): the validated card number is whitespace-stripped. -/
def stripWs (s : String) : String :=
  String.mk (s.toList.filter (fun c => !c.isWhitespace))

/-- Matcher for `/^\d{16}$/` (line 24). -/
def matchCard16 (cs : List Char) : Bool := cs.length == 16 && cs.all Char.isDigit

/-- The character range `[1-9]` of the expiry regex. -/
def digits19 : List Char := ['1', '2', '3', '4', '5', '6', '7', '8', '9']

/-- The character range `[0-2]` of the expiry regex. -/
def digits02 : List Char := ['0', '1', '2']

/-- Matcher for `/^(0[1-9]|1[0-2])\/\d{2}$/` (line 25): a five-character
string whose third character is `/`, whose first two characters are `0`
followed by `[1-9]` or `1` followed by `[0-2]`, and whose last two
characters are digits. -/
def matchExpiry (cs : List Char) : Bool :=
  match cs with
  | [a, b, s, c, d] =>
      s == '/' && ((a == '0' && digits19.contains b) || (a == '1' && digits02.contains b))
        && c.isDigit && d.isDigit
  | _ => false

/-- Matcher for `/^\d{3}$/` (line 26). -/
def matchCvv (cs : List Char) : Bool := cs.length == 3 && cs.all Char.isDigit

/-- `cardSchema.parse({ cardNumber, expiry, cvv })`: zod validates the object
keys in declaration order and `onError` reports `error.errors[0].message`,
so the surfaced message is that of the first violated rule in the order
card number, expiry, CVV. -/
def validateCard (cardNumber expiry cvv : String) : Option String :=
  if !matchCard16 cardNumber.toList then some "Card number must be 16 digits"
  else if !matchExpiry expiry.toList then some "Invalid expiry format (MM/YY)"
  else if !matchCvv cvv.toList then some "CVV must be 3 digits"
  else none

/-- The payment-method radio value: one of `upi`, `card`, `netbanking`, `cod`. -/
inductive PaymentMethod
  | upi | card | netbanking | cod
  deriving DecidableEq, Repr

/-- The raw instrument-field React states (lines 43-47); each defaults to `""`. -/
structure PaymentFields where
  upiId : String
  cardNumber : String
  expiry : String
  cvv : String
  selectedBank : String
  deriving DecidableEq, Repr

/-- The payment-method dispatch of `createOrder` (lines 84-90): `upi` and
`card` parse their zod schemas; `netbanking` throws `'Please select a bank'`
exactly when `selectedBank` is falsy; `cod` performs no check. -/
def validatePayment (m : PaymentMethod) (f : PaymentFields) : Option String :=
  match m with
  | .upi => upiValidate f.upiId
  | .card => validateCard f.cardNumber f.expiry f.cvv
  | .netbanking => if f.selectedBank = "" then some "Please select a bank" else none
  | .cod => none

/-! ### Catalog reconciler (lines 108-131) -/

/-- `const prodId = item.product_id || item.id` (line 116). -/
def resolvedId (item : Item) : Option String := jsOrStr item.product_id item.id

/-- One row of the `order_items` batch insert (lines 122-127). `quantity` is
`item.quantity` verbatim — the source applies no default here, unlike the
total on line 73. -/
structure OrderItem where
  order_id : Nat
  product_id : String
  quantity : Option Int
  price : Int
  deriving DecidableEq, Repr

/-- The body of the `.map` on lines 115-128: skip the item (return `null`)
unless its resolved id is in `validProductIds` (`includes` of an absent or
unresolved id is false), otherwise build the `order_items` row. -/
def mkOrderLine (oid : Nat) (validProductIds : List String) (item : Item) :
    Option OrderItem :=
  match resolvedId item with
  | none => none
  | some pid =>
      if pid ∈ validProductIds then
        some ⟨oid, pid, item.quantity, itemUnitPrice item⟩
      else none

/-- `orderItems` (lines 114-129): map each candidate to a row or `null`,
then `.filter(Boolean)`. -/
def orderItems (oid : Nat) (validProductIds : List String)
    (items : List Item) : List OrderItem :=
  items.filterMap (mkOrderLine oid validProductIds)

/-! ### Persistence pipeline (`createOrder.mutationFn`, lines 76-146) -/

instance {ε α : Type} [DecidableEq ε] [DecidableEq α] : DecidableEq (Except ε α) :=
  fun a b =>
    match a, b with
    | .error e, .error f =>
        if h : e = f then isTrue (by rw [h]) else isFalse (fun hh => by cases hh; exact h rfl)
    | .error _, .ok _ => isFalse (fun hh => by cases hh)
    | .ok _, .error _ => isFalse (fun hh => by cases hh)
    | .ok x, .ok y =>
        if h : x = y then isTrue (by rw [h]) else isFalse (fun hh => by cases hh; exact h rfl)

/-- Outcomes of the four backend calls for one attempt: the `orders` insert
returns the generated order id or a storage error; the `products` select
returns the catalog id list or a storage error; the `order_items` insert and
the `cart_items` delete either succeed or return a storage error. -/
structure Backend where
  orderInsert : Except String Nat
  productsFetch : Except String (List String)
  itemsInsertErr : Option String
  cartClearErr : Option String
  deriving DecidableEq, Repr

/-- The persisted `orders` row (lines 95-103). -/
structure PersistedOrder where
  id : Nat
  user_id : String
  total_amount : Int
  payment_method : PaymentMethod
  payment_status : String
  delivery_status : String
  address : String
  phone : String
  deriving DecidableEq, Repr

/-- The visible storage state: `orders` rows, `order_items` rows, and the
authenticated user's `cart_items` rows. -/
structure DB where
  orders : List PersistedOrder
  order_lines : List OrderItem
  cart : List Item
  deriving DecidableEq, Repr

/-- Tags for the network-bound persistence/read calls actually issued. -/
inductive PersistCall
  | orderInsert | productsSelect | itemsInsert | cartDelete
  deriving DecidableEq, Repr

/-- Resolution of `createOrder.mutateAsync()`: the new order id, or the
thrown error's message as classified by `onError` (lines 153-159). -/
inductive CheckoutResult
  | ok (orderId : Nat)
  | err (msg : String)
  deriving DecidableEq, Repr

/-- One checkout attempt's inputs: the ambient user, the buy-now flag, the
resolved `itemsForPayment`, the shipping/contact states, the selected payment
method with its raw fields, and the backend call outcomes. -/
structure Config where
  user : Option String
  isBuyNow : Bool
  items : List Item
  address : String
  phone : String
  paymentMethod : PaymentMethod
  fields : PaymentFields
  backend : Backend
  deriving DecidableEq, Repr

/-- Result of one attempt: the mutation's resolution, the storage state
afterwards, and the persistence/read calls issued, in order. -/
structure Outcome where
  result : CheckoutResult
  db : DB
  calls : List PersistCall
  deriving DecidableEq, Repr

/-- The `orders` row built by the insert on lines 95-103: the user id, the
pre-reconciliation total, the payment-method tag, the constant statuses
`'completed'` and `'ordered'`, and the shipping fields. -/
def headerRow (cfg : Config) (oid : Nat) : PersistedOrder :=
  ⟨oid, cfg.user.getD "", total cfg.items, cfg.paymentMethod,
   "completed", "ordered", cfg.address, cfg.phone⟩

/-- The `mutationFn` (lines 76-146), step by step in source order:
guard (`'Cart is empty'`), address check, phone check, payment validation,
order-header insert, catalog select, reconciliation with the
`'No valid products found for this order'` guard, `order_items` batch
insert, and the cart delete only when the flow is cart-based. Each thrown
error stops the attempt at that point with the storage state reached so far. -/
def createOrder (cfg : Config) (db : DB) : Outcome :=
  if cfg.user.isNone || cfg.items.isEmpty then
    ⟨.err "Cart is empty", db, []⟩
  else if cfg.address = "" then
    ⟨.err "Please enter your address", db, []⟩
  else if cfg.phone = "" then
    ⟨.err "Please enter your phone number", db, []⟩
  else
    match validatePayment cfg.paymentMethod cfg.fields with
    | some msg => ⟨.err msg, db, []⟩
    | none =>
        match cfg.backend.orderInsert with
        | .error e => ⟨.err e, db, [.orderInsert]⟩
        | .ok oid =>
            let db1 : DB := ⟨db.orders ++ [headerRow cfg oid], db.order_lines, db.cart⟩
            match cfg.backend.productsFetch with
            | .error e => ⟨.err e, db1, [.orderInsert, .productsSelect]⟩
            | .ok validProductIds =>
                let lines := orderItems oid validProductIds cfg.items
                if lines.isEmpty then
                  ⟨.err "No valid products found for this order", db1,
                   [.orderInsert, .productsSelect]⟩
                else
                  match cfg.backend.itemsInsertErr with
                  | some e =>
                      ⟨.err e, db1, [.orderInsert, .productsSelect, .itemsInsert]⟩
                  | none =>
                      let db2 : DB :=
                        ⟨db1.orders, db1.order_lines ++ lines, db1.cart⟩
                      if cfg.isBuyNow then
                        ⟨.ok oid, db2, [.orderInsert, .productsSelect, .itemsInsert]⟩
                      else
                        match cfg.backend.cartClearErr with
                        | some e =>
                            ⟨.err e, db2,
                             [.orderInsert, .productsSelect, .itemsInsert, .cartDelete]⟩
                        | none =>
                            ⟨.ok oid, ⟨db2.orders, db2.order_lines, []⟩,
                             [.orderInsert, .productsSelect, .itemsInsert, .cartDelete]⟩

/-! ### Spec-side definitions

These follow the specification's words, to be compared with the definitions
embedded from the source above. -/

/-- Spec 4.3: resolve the effective product identity, preferring an explicit
product-reference field over a bare identity field. -/
def specResolvedId (item : Item) : Option String :=
  match item.product_id with
  | some pid => some pid
  | none => item.id

/-- Spec 4.3: the resolved unit price of a kept item: prefer a price carried
directly on the candidate; fall back to the nested product reference's
price; fall back to zero if neither is present. -/
def specUnitPrice (item : Item) : Int :=
  match item.price with
  | some p => p
  | none =>
      match item.products.bind ProductRef.price with
      | some p => p
      | none => 0

/-- Spec invariant: the total is the sum over pre-reconciliation candidates
of unit price times quantity. -/
def specTotal (items : List Item) : Int :=
  (items.map (fun i => specUnitPrice i * i.quantity.getD 0)).sum

/-- Spec 4.2: a 16-digit numeric card number. -/
def specCard16 (s : String) : Prop :=
  s.toList.length = 16 ∧ ∀ c ∈ s.toList, c.isDigit = true

/-- The month denoted by the two leading expiry characters, as a number. -/
def expiryMonth (a b : Char) : Nat := 10 * (a.toNat - 48) + (b.toNat - 48)

/-- Spec 4.2: an expiry string matching `MM/YY` with month in 01-12:
two digit characters denoting a month between 1 and 12, a slash, and two
further digit characters. -/
def specExpiry (s : String) : Prop :=
  ∃ a b c d : Char, s.toList = [a, b, '/', c, d] ∧ a.isDigit = true ∧
    b.isDigit = true ∧ c.isDigit = true ∧ d.isDigit = true ∧
    1 ≤ expiryMonth a b ∧ expiryMonth a b ≤ 12

/-- Spec 4.2: a 3-digit numeric CVV. -/
def specCvv (s : String) : Prop :=
  s.toList.length = 3 ∧ ∀ c ∈ s.toList, c.isDigit = true

/-- Spec 4.2: a UPI handle of the shape `local-part@domain-part` where both
parts are nonempty and consist of word characters, dots, or hyphens only. -/
def upiSpec (s : String) : Prop :=
  ∃ l r : List Char, s.toList = l ++ '@' :: r ∧ l ≠ [] ∧ r ≠ [] ∧
    (∀ c ∈ l, upiClassChar c = true) ∧ (∀ c ∈ r, upiClassChar c = true)

/-! ### Helper lemmas -/

theorem char_eq_ofNat {c : Char} {n : Nat} (h : c.toNat = n) : c = Char.ofNat n := by
  subst h
  exact (Char.ofNat_toNat c).symm

theorem charDigitBounds (c : Char) (h : c.isDigit = true) :
    48 ≤ c.toNat ∧ c.toNat ≤ 57 := by
  simp only [Char.isDigit, Bool.and_eq_true, decide_eq_true_eq] at h
  exact ⟨h.1, h.2⟩

theorem matchExpiry_iff (cs : List Char) :
    matchExpiry cs = true ↔ ∃ a b c d : Char, cs = [a, b, '/', c, d] ∧
      a.isDigit = true ∧ b.isDigit = true ∧ c.isDigit = true ∧ d.isDigit = true ∧
      1 ≤ expiryMonth a b ∧ expiryMonth a b ≤ 12 := by
  constructor
  · intro h
    rcases cs with _ | ⟨a, _ | ⟨b, _ | ⟨s, _ | ⟨c, _ | ⟨d, _ | ⟨e, t⟩⟩⟩⟩⟩⟩ <;>
      simp only [matchExpiry, Bool.false_eq_true] at h
    simp only [Bool.and_eq_true, Bool.or_eq_true, beq_iff_eq, List.contains,
      List.elem_iff] at h
    obtain ⟨⟨⟨hs, hab⟩, hc⟩, hd⟩ := h
    subst hs
    rcases hab with ⟨ha, hb⟩ | ⟨ha, hb⟩ <;> subst ha <;> fin_cases hb <;>
      exact ⟨_, _, c, d, rfl, by decide, by decide, hc, hd, by decide, by decide⟩
  · rintro ⟨a, b, c, d, rfl, ha, hb, hc, hd, h1, h12⟩
    simp only [matchExpiry, Bool.and_eq_true, Bool.or_eq_true, beq_iff_eq,
      List.contains, List.elem_iff]
    refine ⟨⟨⟨trivial, ?_⟩, hc⟩, hd⟩
    obtain ⟨ha1, ha2⟩ := charDigitBounds a ha
    obtain ⟨hb1, hb2⟩ := charDigitBounds b hb
    unfold expiryMonth at h1 h12
    by_cases hA : a.toNat = 48
    · refine Or.inl ⟨char_eq_ofNat hA, ?_⟩
      have hb3 : 49 ≤ b.toNat := by omega
      interval_cases h : b.toNat <;> rw [char_eq_ofNat h] <;> decide
    · have hA' : a.toNat = 49 := by omega
      refine Or.inr ⟨char_eq_ofNat hA', ?_⟩
      have hb3 : b.toNat ≤ 50 := by omega
      interval_cases h : b.toNat <;> rw [char_eq_ofNat h] <;> decide

theorem upiTakeWhile_of_class (l : List Char) (r : List Char)
    (hl : ∀ c ∈ l, upiClassChar c = true) :
    (l ++ '@' :: r).takeWhile upiClassChar = l ∧
      (l ++ '@' :: r).dropWhile upiClassChar = '@' :: r := by
  have h0 : upiClassChar '@' = false := by decide
  induction l with
  | nil => simp [List.takeWhile_cons, List.dropWhile_cons, h0]
  | cons x xs ih =>
      have hx : upiClassChar x = true := hl x (List.mem_cons_self x xs)
      have ih' := ih (fun c hc => hl c (List.mem_cons_of_mem x hc))
      simp [List.takeWhile_cons, List.dropWhile_cons, hx, ih'.1, ih'.2]

theorem upiMatch_iff (cs : List Char) :
    upiMatch cs = true ↔ ∃ l r : List Char, cs = l ++ '@' :: r ∧ l ≠ [] ∧ r ≠ [] ∧
      (∀ c ∈ l, upiClassChar c = true) ∧ (∀ c ∈ r, upiClassChar c = true) := by
  constructor
  · intro h
    unfold upiMatch at h
    split at h
    case _ r heq =>
      simp only [Bool.and_eq_true, Bool.not_eq_true', List.isEmpty_eq_false,
        List.all_eq_true] at h
      obtain ⟨⟨hl, hr⟩, hcr⟩ := h
      refine ⟨cs.takeWhile upiClassChar, r, ?_, hl, hr, ?_, hcr⟩
      · conv_lhs => rw [← List.takeWhile_append_dropWhile upiClassChar cs]
        rw [heq]
      · exact fun c hc => List.mem_takeWhile_imp hc
    case _ => simp at h
  · rintro ⟨l, r, rfl, hl, hr, hcl, hcr⟩
    obtain ⟨ht, hd⟩ := upiTakeWhile_of_class l r hcl
    unfold upiMatch
    rw [hd, ht]
    simp only [Bool.and_eq_true, Bool.not_eq_true', List.isEmpty_eq_false,
      List.all_eq_true]
    exact ⟨⟨hl, hr⟩, hcr⟩

theorem specCard16_iff (s : String) : matchCard16 s.toList = true ↔ specCard16 s := by
  simp [matchCard16, specCard16, Bool.and_eq_true, List.all_eq_true]

theorem specCvv_iff (s : String) : matchCvv s.toList = true ↔ specCvv s := by
  simp [matchCvv, specCvv, Bool.and_eq_true, List.all_eq_true]

theorem specExpiry_iff (s : String) : matchExpiry s.toList = true ↔ specExpiry s :=
  matchExpiry_iff s.toList

theorem upiSpec_iff (s : String) : upiMatch s.toList = true ↔ upiSpec s :=
  upiMatch_iff s.toList

theorem foldl_add_eq_sum {α : Type} (g : α → Int) (l : List α) (a : Int) :
    l.foldl (fun s i => s + g i) a = a + (l.map g).sum := by
  induction l generalizing a with
  | nil => simp
  | cons x xs ih => simp [List.foldl_cons, ih, add_assoc]

theorem total_eq_map_sum (items : List Item) :
    total items = (items.map (fun i => itemUnitPrice i * itemQty i)).sum := by
  unfold total
  rw [foldl_add_eq_sum]
  simp

theorem itemUnitPrice_eq_spec (i : Item)
    (hp : i.price ≠ some 0) (hn : i.products.bind ProductRef.price ≠ some 0) :
    itemUnitPrice i = specUnitPrice i := by
  unfold itemUnitPrice specUnitPrice
  cases hpr : i.price with
  | none =>
      cases hnp : i.products.bind ProductRef.price with
      | none => simp [jsOrNum]
      | some p =>
          have hpz : p ≠ 0 := fun h => hn (by rw [hnp, h])
          simp [jsOrNum, hpz]
  | some p =>
      have hpz : p ≠ 0 := fun h => hp (by rw [hpr, h])
      simp [jsOrNum, hpz]

theorem itemQty_eq_qty (i : Item) (hq : 0 < i.quantity.getD 0) :
    itemQty i = i.quantity.getD 0 := by
  unfold itemQty jsOrNum
  cases h : i.quantity with
  | none => rw [h] at hq; simp at hq
  | some q =>
      rw [h] at hq
      simp at hq ⊢
      omega

theorem resolvedId_eq_spec (item : Item) (hpid : item.product_id ≠ some "") :
    resolvedId item = specResolvedId item := by
  unfold resolvedId specResolvedId jsOrStr strFalsy
  cases h : item.product_id with
  | none => simp
  | some s =>
      have hs : s ≠ "" := fun he => hpid (by rw [h, he])
      simp [hs]

theorem validateCard_none_iff (n e c : String) :
    validateCard n e c = none ↔ specCard16 n ∧ specExpiry e ∧ specCvv c := by
  unfold validateCard
  rw [← specCard16_iff, ← specExpiry_iff, ← specCvv_iff]
  cases h1 : matchCard16 n.toList <;> cases h2 : matchExpiry e.toList <;>
    cases h3 : matchCvv c.toList <;> simp

/-! ### Claims -/

/-- Claim C5: card validation succeeds exactly when the whitespace-stripped
card number is 16 digits, the expiry matches MM/YY with month 01-12, and the
CVV is 3 digits; on failure the surfaced message is that of the first
violated rule in the order card number, expiry, CVV; the three concrete
examples behave as the spec states. -/
theorem claim_C5 :
    (∀ f : PaymentFields,
        validatePayment .card f = validateCard f.cardNumber f.expiry f.cvv) ∧
    (∀ raw e c : String, validateCard (stripWs raw) e c = none ↔
        specCard16 (stripWs raw) ∧ specExpiry e ∧ specCvv c) ∧
    (∀ n e c : String, ¬ specCard16 n →
        validateCard n e c = some "Card number must be 16 digits") ∧
    (∀ n e c : String, specCard16 n → ¬ specExpiry e →
        validateCard n e c = some "Invalid expiry format (MM/YY)") ∧
    (∀ n e c : String, specCard16 n → specExpiry e → ¬ specCvv c →
        validateCard n e c = some "CVV must be 3 digits") ∧
    validateCard "1234567812345678" "12/25" "123" = none ∧
    validateCard "123456781234567" "12/25" "123" =
      some "Card number must be 16 digits" ∧
    validateCard "1234567812345678" "13/25" "123" =
      some "Invalid expiry format (MM/YY)" := by
  refine ⟨fun f => rfl, fun raw e c => validateCard_none_iff (stripWs raw) e c,
    ?_, ?_, ?_, by decide, by decide, by decide⟩
  · intro n e c hn
    unfold validateCard
    cases h : matchCard16 n.toList with
    | true => exact absurd ((specCard16_iff n).mp h) hn
    | false => simp
  · intro n e c hn he
    unfold validateCard
    rw [(specCard16_iff n).mpr hn]
    cases h : matchExpiry e.toList with
    | true => exact absurd ((specExpiry_iff e).mp h) he
    | false => simp
  · intro n e c hn he hc
    unfold validateCard
    rw [(specCard16_iff n).mpr hn, (specExpiry_iff e).mpr he]
    cases h : matchCvv c.toList with
    | true => exact absurd ((specCvv_iff c).mp h) hc
    | false => simp

/-- Claim C5 witness: the implication conjuncts applied at concrete inputs,
with each hypothesis discharged there. -/
theorem claim_C5_witness :
    validateCard "abc" "12/25" "123" = some "Card number must be 16 digits" ∧
    validateCard "1234567812345678" "13/25" "123" =
      some "Invalid expiry format (MM/YY)" ∧
    validateCard "1234567812345678" "12/25" "12" = some "CVV must be 3 digits" ∧
    (validateCard (stripWs "1234 5678 1234 5678") "12/25" "123" = none ↔
      specCard16 (stripWs "1234 5678 1234 5678") ∧ specExpiry "12/25" ∧
        specCvv "123") := by
  refine ⟨?_, ?_, ?_, ?_⟩
  · exact claim_C5.2.2.1 "abc" "12/25" "123"
      (fun hs => absurd ((specCard16_iff "abc").mpr hs) (by decide))
  · exact claim_C5.2.2.2.1 "1234567812345678" "13/25" "123"
      ((specCard16_iff "1234567812345678").mp (by decide))
      (fun hs => absurd ((specExpiry_iff "13/25").mpr hs) (by decide))
  · exact claim_C5.2.2.2.2.1 "1234567812345678" "12/25" "12"
      ((specCard16_iff "1234567812345678").mp (by decide))
      ((specExpiry_iff "12/25").mp (by decide))
      (fun hs => absurd ((specCvv_iff "12").mpr hs) (by decide))
  · exact claim_C5.2.1 "1234 5678 1234 5678" "12/25" "123"

/-- Claim C6: UPI validation succeeds exactly when the handle splits as
`local@domain` with both parts nonempty and drawn from word characters,
dots, and hyphens, and fails with "Invalid UPI ID format" otherwise;
"user@bank" passes while "user" and "user@" fail. -/
theorem claim_C6 :
    (∀ s : String, upiValidate s = none ↔ upiSpec s) ∧
    (∀ s : String, ¬ upiSpec s → upiValidate s = some "Invalid UPI ID format") ∧
    upiValidate "user@bank" = none ∧
    upiValidate "user" = some "Invalid UPI ID format" ∧
    upiValidate "user@" = some "Invalid UPI ID format" := by
  have key : ∀ s : String, upiValidate s = none ↔ upiSpec s := by
    intro s
    unfold upiValidate
    rw [← upiSpec_iff]
    cases h : upiMatch s.toList <;> simp
  refine ⟨key, ?_, by decide, by decide, by decide⟩
  intro s hs
  unfold upiValidate
  cases h : upiMatch s.toList with
  | true => exact absurd ((upiSpec_iff s).mp h) hs
  | false => simp

/-- Claim C6 witness: the failure conjunct applied at "user@", with its
hypothesis discharged via the executable matcher. -/
theorem claim_C6_witness :
    upiValidate "user@" = some "Invalid UPI ID format" :=
  claim_C6.2.1 "user@"
    (fun hs => absurd ((upiSpec_iff "user@").mpr hs) (by decide))

/-- Claim C7 counterexample: the net-banking check in `createOrder` only
tests that `selectedBank` is non-empty; a string outside the fixed bank
list passes validation, so validation does not require the selection to be
drawn from the enumerated list. -/
theorem claim_C7_counterexample :
    validatePayment .netbanking ⟨"", "", "", "", "Definitely Not A Bank"⟩ = none ∧
    "Definitely Not A Bank" ∉ banks := by
  constructor
  · decide
  · decide

/-- Claim C7 as amended: net-banking validation fails with "Please select a
bank" exactly when the selection is empty and passes any non-empty
selection; membership in the fixed bank list is enforced only by the UI's
choice set, not by this validation. "HDFC Bank" is in the list and passes. -/
theorem claim_C7 :
    (∀ f : PaymentFields, f.selectedBank = "" →
        validatePayment .netbanking f = some "Please select a bank") ∧
    (∀ f : PaymentFields, f.selectedBank ≠ "" →
        validatePayment .netbanking f = none) ∧
    validatePayment .netbanking ⟨"", "", "", "", "HDFC Bank"⟩ = none ∧
    "HDFC Bank" ∈ banks := by
  refine ⟨?_, ?_, by decide, by decide⟩
  · intro f hf
    unfold validatePayment
    rw [if_pos hf]
  · intro f hf
    unfold validatePayment
    rw [if_neg hf]

/-- Claim C7 witness: the two implication conjuncts applied at concrete
field records. -/
theorem claim_C7_witness :
    validatePayment .netbanking ⟨"", "", "", "", ""⟩ =
      some "Please select a bank" ∧
    validatePayment .netbanking ⟨"", "", "", "", "HDFC Bank"⟩ = none :=
  ⟨claim_C7.1 ⟨"", "", "", "", ""⟩ rfl,
   claim_C7.2.1 ⟨"", "", "", "", "HDFC Bank"⟩ (by decide)⟩

/-- Claim C8 counterexample: a buy-now quantity of -2 is truthy in
JavaScript, so `buyNowState.quantity || 1` passes it through unchanged and
the produced candidate's quantity is -2, not coerced to at least 1. -/
theorem claim_C8_counterexample :
    itemsForPayment true ⟨some "p", some 10⟩ (some (-2)) [] =
      [⟨none, some "p", some 10, none, some (-2)⟩] ∧
    ¬ (1 ≤ (-2 : Int)) := by
  constructor
  · decide
  · decide

/-- Claim C8 as amended: the buy-now resolver produces exactly one candidate
built from the supplied product; its quantity defaults to 1 when the
supplied quantity is unspecified or zero (the falsy cases of `|| 1`), while
any non-zero quantity — including negative values — passes through
unchanged. -/
theorem claim_C8 :
    (∀ (p : Product) (q : Option Int) (cart : List Item),
        itemsForPayment true p q cart = [mkBuyNowItem p q]) ∧
    (∀ p : Product, (mkBuyNowItem p none).quantity = some 1) ∧
    (∀ p : Product, (mkBuyNowItem p (some 0)).quantity = some 1) ∧
    (∀ (p : Product) (n : Int), n ≠ 0 →
        (mkBuyNowItem p (some n)).quantity = some n) := by
  refine ⟨fun p q cart => rfl, fun p => rfl, fun p => rfl, ?_⟩
  intro p n hn
  unfold mkBuyNowItem buyNowQuantity jsOrNum
  simp [hn]

/-- Claim C8 witness: the pass-through conjunct applied at quantity 3. -/
theorem claim_C8_witness :
    (mkBuyNowItem ⟨some "p", some 10⟩ (some 3)).quantity = some 3 :=
  claim_C8.2.2.2 ⟨some "p", some 10⟩ 3 (by decide)

/-- Claim C1 counterexample: a concrete attempt in which reconciliation
discards every candidate (empty catalog) fails with the claimed message and
persists no OrderLine, but the Order header inserted before the catalog
fetch IS persisted and visible — refuting "no Order is persisted or
visible". -/
theorem claim_C1_counterexample :
    (createOrder ⟨some "u7", true, [⟨none, some "p1", some 100, none, some 1⟩],
        "12 Main St", "9999", .cod, ⟨"", "", "", "", ""⟩,
        ⟨.ok 7, .ok [], none, none⟩⟩ ⟨[], [], []⟩).result =
      .err "No valid products found for this order" ∧
    (createOrder ⟨some "u7", true, [⟨none, some "p1", some 100, none, some 1⟩],
        "12 Main St", "9999", .cod, ⟨"", "", "", "", ""⟩,
        ⟨.ok 7, .ok [], none, none⟩⟩ ⟨[], [], []⟩).db.order_lines = [] ∧
    (createOrder ⟨some "u7", true, [⟨none, some "p1", some 100, none, some 1⟩],
        "12 Main St", "9999", .cod, ⟨"", "", "", "", ""⟩,
        ⟨.ok 7, .ok [], none, none⟩⟩ ⟨[], [], []⟩).db.orders ≠ [] := by
  refine ⟨?_, ?_, ?_⟩
  · decide
  · decide
  · decide

/-- Claim C1 as amended: when every candidate is discarded by
reconciliation, the attempt fails with "No valid products found for this
order" and no OrderLine is persisted, but the Order header inserted in the
step before the catalog fetch remains persisted and visible — a dangling
Order with zero OrderLines is left behind. -/
theorem claim_C1 (cfg : Config) (db : DB) (oid : Nat) (catalog : List String)
    (hu : cfg.user.isNone = false) (hi : cfg.items.isEmpty = false)
    (ha : cfg.address ≠ "") (hp : cfg.phone ≠ "")
    (hv : validatePayment cfg.paymentMethod cfg.fields = none)
    (ho : cfg.backend.orderInsert = .ok oid)
    (hc : cfg.backend.productsFetch = .ok catalog)
    (hempty : orderItems oid catalog cfg.items = []) :
    createOrder cfg db = ⟨.err "No valid products found for this order",
      ⟨db.orders ++ [headerRow cfg oid], db.order_lines, db.cart⟩,
      [.orderInsert, .productsSelect]⟩ := by
  simp [createOrder, hu, hi, ha, hp, hv, ho, hc, hempty]

/-- Claim C1 witness: the amended theorem applied at a concrete attempt. -/
theorem claim_C1_witness :
    createOrder ⟨some "u7", true, [⟨none, some "p1", some 100, none, some 1⟩],
        "12 Main St", "9999", .cod, ⟨"", "", "", "", ""⟩,
        ⟨.ok 7, .ok [], none, none⟩⟩ ⟨[], [], []⟩ =
      ⟨.err "No valid products found for this order",
       ⟨[⟨7, "u7", 100, .cod, "completed", "ordered", "12 Main St", "9999"⟩],
        [], []⟩,
       [.orderInsert, .productsSelect]⟩ := by
  rw [claim_C1 ⟨some "u7", true, [⟨none, some "p1", some 100, none, some 1⟩],
      "12 Main St", "9999", .cod, ⟨"", "", "", "", ""⟩, ⟨.ok 7, .ok [], none, none⟩⟩
    ⟨[], [], []⟩ 7 [] (by decide) (by decide) (by decide) (by decide) rfl rfl
    rfl (by decide)]
  decide

/-- Claim C2: the order total is the pre-reconciliation sum of unit price
times quantity over the candidates (for candidates with positive quantities
and no explicit zero prices, matching the data model); any order row the
pipeline persists records exactly this total regardless of the catalog, so
the total is independent of which items survive reconciliation; the
two-candidate example totals 250. -/
theorem claim_C2 :
    (∀ items : List Item,
        (∀ i ∈ items, 0 < i.quantity.getD 0) →
        (∀ i ∈ items, i.price ≠ some 0) →
        (∀ i ∈ items, i.products.bind ProductRef.price ≠ some 0) →
        total items = specTotal items) ∧
    (∀ (cfg : Config) (db : DB) (o : PersistedOrder),
        o ∈ (createOrder cfg db).db.orders →
        o ∈ db.orders ∨ o.total_amount = total cfg.items) ∧
    total [⟨none, some "a", some 100, none, some 2⟩,
           ⟨none, some "b", some 50, none, some 1⟩] = 250 := by
  refine ⟨?_, ?_, by decide⟩
  · intro items hq hp hn
    rw [total_eq_map_sum]
    unfold specTotal
    congr 1
    apply List.map_congr_left
    intro i hi
    rw [itemUnitPrice_eq_spec i (hp i hi) (hn i hi), itemQty_eq_qty i (hq i hi)]
  · intro cfg db o ho
    unfold createOrder at ho
    repeat' split at ho
    all_goals (try simp only [apply_ite Outcome.db, apply_ite DB.orders] at ho)
    all_goals (try split at ho)
    all_goals (try simp only [List.mem_append, List.mem_singleton] at ho)
    all_goals (
      first
      | exact Or.inl ho
      | (rcases ho with h | h
         · exact Or.inl h
         · subst h
           exact Or.inr rfl))

/-- Claim C2 witness: the refinement conjunct applied at the two-candidate
example list, with every hypothesis discharged there. -/
theorem claim_C2_witness :
    total [⟨none, some "a", some 100, none, some 2⟩,
           ⟨none, some "b", some 50, none, some 1⟩] =
      specTotal [⟨none, some "a", some 100, none, some 2⟩,
                 ⟨none, some "b", some 50, none, some 1⟩] :=
  claim_C2.1 [⟨none, some "a", some 100, none, some 2⟩,
              ⟨none, some "b", some 50, none, some 1⟩]
    (by decide) (by decide) (by decide)

/-- Claim C3: a candidate is kept by the reconciler exactly when its
resolved identity (explicit product-reference field, else bare identity) is
in the catalog snapshot; a kept row records the spec's preferred unit price
and the candidate's own quantity; and reconciliation is pointwise, so
discarding one candidate never affects another's inclusion. -/
theorem claim_C3 :
    (∀ (oid : Nat) (catalog : List String) (item : Item),
        item.product_id ≠ some "" →
        ((mkOrderLine oid catalog item).isSome = true ↔
          ∃ pid, specResolvedId item = some pid ∧ pid ∈ catalog)) ∧
    (∀ (oid : Nat) (catalog : List String) (item : Item) (line : OrderItem),
        item.price ≠ some 0 → item.products.bind ProductRef.price ≠ some 0 →
        mkOrderLine oid catalog item = some line →
        line.price = specUnitPrice item ∧ line.quantity = item.quantity) ∧
    (∀ (oid : Nat) (catalog : List String) (xs ys : List Item),
        orderItems oid catalog (xs ++ ys) =
          orderItems oid catalog xs ++ orderItems oid catalog ys) := by
  refine ⟨?_, ?_, ?_⟩
  · intro oid catalog item hpid
    unfold mkOrderLine
    rw [resolvedId_eq_spec item hpid]
    cases h : specResolvedId item with
    | none => simp
    | some pid => by_cases hm : pid ∈ catalog <;> simp [hm]
  · intro oid catalog item line hp hn h
    unfold mkOrderLine at h
    cases hres : resolvedId item with
    | none => rw [hres] at h; simp at h
    | some pid =>
        rw [hres] at h
        dsimp only at h
        by_cases hm : pid ∈ catalog
        · rw [if_pos hm] at h
          cases h
          exact ⟨itemUnitPrice_eq_spec item hp hn, rfl⟩
        · rw [if_neg hm] at h; simp at h
  · intro oid catalog xs ys
    unfold orderItems
    exact List.filterMap_append xs ys (mkOrderLine oid catalog)

/-- Claim C3 witness: the keep-iff and recorded-price conjuncts applied at a
concrete candidate and catalog. -/
theorem claim_C3_witness :
    ((mkOrderLine 1 ["p"] ⟨none, some "p", some 5, none, some 1⟩).isSome = true ↔
      ∃ pid, specResolvedId ⟨none, some "p", some 5, none, some 1⟩ = some pid ∧
        pid ∈ ["p"]) ∧
    ((⟨1, "p", some 1, 5⟩ : OrderItem).price =
        specUnitPrice ⟨none, some "p", some 5, none, some 1⟩ ∧
      (⟨1, "p", some 1, 5⟩ : OrderItem).quantity =
        Item.quantity ⟨none, some "p", some 5, none, some 1⟩) :=
  ⟨claim_C3.1 1 ["p"] ⟨none, some "p", some 5, none, some 1⟩ (by decide),
   claim_C3.2.1 1 ["p"] ⟨none, some "p", some 5, none, some 1⟩ ⟨1, "p", some 1, 5⟩
     (by decide) (by decide) (by decide)⟩

/-- Claim C4: for an authenticated attempt with a non-empty candidate list,
an empty address fails first with "Please enter your address", then an empty
phone with "Please enter your phone number", then payment-method validation
with its own message — and in each of these failures no persistence call is
issued and the storage state is untouched. -/
theorem claim_C4 (cfg : Config) (db : DB)
    (hu : cfg.user.isNone = false) (hi : cfg.items.isEmpty = false) :
    (cfg.address = "" →
      createOrder cfg db = ⟨.err "Please enter your address", db, []⟩) ∧
    (cfg.address ≠ "" → cfg.phone = "" →
      createOrder cfg db = ⟨.err "Please enter your phone number", db, []⟩) ∧
    (∀ msg, cfg.address ≠ "" → cfg.phone ≠ "" →
      validatePayment cfg.paymentMethod cfg.fields = some msg →
      createOrder cfg db = ⟨.err msg, db, []⟩) := by
  refine ⟨?_, ?_, ?_⟩
  · intro ha
    simp [createOrder, hu, hi, ha]
  · intro ha hp
    simp [createOrder, hu, hi, ha, hp]
  · intro msg ha hp hv
    simp [createOrder, hu, hi, ha, hp, hv]

/-- Claim C4 witness: the three failure conjuncts applied at concrete
attempts whose address, phone, or UPI handle is empty. -/
theorem claim_C4_witness :
    createOrder ⟨some "u", false, [⟨some "p", none, some 10, none, some 1⟩],
        "", "", .upi, ⟨"", "", "", "", ""⟩, ⟨.ok 1, .ok ["p"], none, none⟩⟩
      ⟨[], [], []⟩ = ⟨.err "Please enter your address", ⟨[], [], []⟩, []⟩ ∧
    createOrder ⟨some "u", false, [⟨some "p", none, some 10, none, some 1⟩],
        "A st", "", .upi, ⟨"", "", "", "", ""⟩, ⟨.ok 1, .ok ["p"], none, none⟩⟩
      ⟨[], [], []⟩ = ⟨.err "Please enter your phone number", ⟨[], [], []⟩, []⟩ ∧
    createOrder ⟨some "u", false, [⟨some "p", none, some 10, none, some 1⟩],
        "A st", "9", .upi, ⟨"", "", "", "", ""⟩, ⟨.ok 1, .ok ["p"], none, none⟩⟩
      ⟨[], [], []⟩ = ⟨.err "Invalid UPI ID format", ⟨[], [], []⟩, []⟩ :=
  ⟨(claim_C4 _ _ (by decide) (by decide)).1 rfl,
   (claim_C4 _ _ (by decide) (by decide)).2.1 (by decide) rfl,
   (claim_C4 _ _ (by decide) (by decide)).2.2 "Invalid UPI ID format"
     (by decide) (by decide) (by decide)⟩

/-- Claim C9: the persistence steps run in a fixed sequential order. If the
header insert fails, the attempt stops with that storage error, nothing is
persisted and no OrderLine insert is attempted; if the OrderLine batch
insert fails, the header remains persisted, no lines are added, and the
storage error surfaces; if the cart delete fails, the Order and its lines
remain persisted and visible; the cart delete only ever runs in cart-based
flows as the last step; and the issued call list is always a prefix of
header insert, catalog select, line insert, cart delete. -/
theorem claim_C9 :
    (∀ (cfg : Config) (db : DB) (e : String),
        cfg.user.isNone = false → cfg.items.isEmpty = false →
        cfg.address ≠ "" → cfg.phone ≠ "" →
        validatePayment cfg.paymentMethod cfg.fields = none →
        cfg.backend.orderInsert = .error e →
        createOrder cfg db = ⟨.err e, db, [.orderInsert]⟩) ∧
    (∀ (cfg : Config) (db : DB) (oid : Nat) (catalog : List String) (e : String),
        cfg.user.isNone = false → cfg.items.isEmpty = false →
        cfg.address ≠ "" → cfg.phone ≠ "" →
        validatePayment cfg.paymentMethod cfg.fields = none →
        cfg.backend.orderInsert = .ok oid →
        cfg.backend.productsFetch = .ok catalog →
        orderItems oid catalog cfg.items ≠ [] →
        cfg.backend.itemsInsertErr = some e →
        createOrder cfg db = ⟨.err e,
          ⟨db.orders ++ [headerRow cfg oid], db.order_lines, db.cart⟩,
          [.orderInsert, .productsSelect, .itemsInsert]⟩) ∧
    (∀ (cfg : Config) (db : DB) (oid : Nat) (catalog : List String) (e : String),
        cfg.user.isNone = false → cfg.items.isEmpty = false →
        cfg.address ≠ "" → cfg.phone ≠ "" →
        validatePayment cfg.paymentMethod cfg.fields = none →
        cfg.backend.orderInsert = .ok oid →
        cfg.backend.productsFetch = .ok catalog →
        orderItems oid catalog cfg.items ≠ [] →
        cfg.backend.itemsInsertErr = none →
        cfg.isBuyNow = false →
        cfg.backend.cartClearErr = some e →
        createOrder cfg db = ⟨.err e,
          ⟨db.orders ++ [headerRow cfg oid],
           db.order_lines ++ orderItems oid catalog cfg.items, db.cart⟩,
          [.orderInsert, .productsSelect, .itemsInsert, .cartDelete]⟩) ∧
    (∀ (cfg : Config) (db : DB),
        PersistCall.cartDelete ∈ (createOrder cfg db).calls →
        cfg.isBuyNow = false ∧ (createOrder cfg db).calls =
          [.orderInsert, .productsSelect, .itemsInsert, .cartDelete]) ∧
    (∀ (cfg : Config) (db : DB),
        (createOrder cfg db).calls ∈
          ([[], [PersistCall.orderInsert], [.orderInsert, .productsSelect],
            [.orderInsert, .productsSelect, .itemsInsert],
            [.orderInsert, .productsSelect, .itemsInsert, .cartDelete]] :
            List (List PersistCall))) := by
  refine ⟨?_, ?_, ?_, ?_, ?_⟩
  · intro cfg db e hu hi ha hp hv ho
    simp [createOrder, hu, hi, ha, hp, hv, ho]
  · intro cfg db oid catalog e hu hi ha hp hv ho hc hne hins
    simp [createOrder, hu, hi, ha, hp, hv, ho, hc, hne, hins]
  · intro cfg db oid catalog e hu hi ha hp hv ho hc hne hins hbn hclear
    simp [createOrder, hu, hi, ha, hp, hv, ho, hc, hne, hins, hbn, hclear]
  · intro cfg db h
    rcases hE : createOrder cfg db with ⟨res, dbF, calls⟩
    rw [hE] at h
    unfold createOrder at hE
    repeat' (first | split at hE | dsimp only at hE)
    all_goals (injection hE with h1 h2 h3)
    all_goals subst h3
    all_goals simp_all
  · intro cfg db
    unfold createOrder
    repeat' split
    all_goals (try simp only [apply_ite Outcome.calls])
    all_goals (try split)
    all_goals simp

/-- Claim C9 witness: the header-insert-failure and line-insert-failure
conjuncts applied at concrete attempts. -/
theorem claim_C9_witness :
    createOrder ⟨some "u", true, [⟨none, some "p", some 10, none, some 1⟩],
        "A st", "9", .cod, ⟨"", "", "", "", ""⟩,
        ⟨.error "db down", .ok ["p"], none, none⟩⟩ ⟨[], [], []⟩ =
      ⟨.err "db down", ⟨[], [], []⟩, [.orderInsert]⟩ ∧
    createOrder ⟨some "u", true, [⟨none, some "p", some 10, none, some 1⟩],
        "A st", "9", .cod, ⟨"", "", "", "", ""⟩,
        ⟨.ok 3, .ok ["p"], some "insert failed", none⟩⟩ ⟨[], [], []⟩ =
      ⟨.err "insert failed",
       ⟨[⟨3, "u", 10, .cod, "completed", "ordered", "A st", "9"⟩], [], []⟩,
       [.orderInsert, .productsSelect, .itemsInsert]⟩ := by
  constructor
  · exact claim_C9.1 _ _ "db down" (by decide) (by decide) (by decide)
      (by decide) rfl rfl
  · rw [claim_C9.2.1 ⟨some "u", true, [⟨none, some "p", some 10, none, some 1⟩],
        "A st", "9", .cod, ⟨"", "", "", "", ""⟩,
        ⟨.ok 3, .ok ["p"], some "insert failed", none⟩⟩ ⟨[], [], []⟩ 3 ["p"]
        "insert failed" (by decide) (by decide) (by decide) (by decide) rfl rfl
        rfl (by decide) rfl]
    decide

/-- Claim C10: a surviving candidate whose quantity is missing or zero is
counted with quantity 1 in the total (JS `|| 1`) but its persisted OrderLine
records the original quantity unchanged, so the persisted total and the sum
of price times quantity over the persisted lines disagree: concretely a
lone zero-quantity item yields total 100 but line-sum 0. -/
theorem claim_C10 :
    (∀ (oid : Nat) (catalog : List String) (item : Item) (pid : String),
        resolvedId item = some pid → pid ∈ catalog →
        item.quantity = none ∨ item.quantity = some 0 →
        orderItems oid catalog [item] =
          [⟨oid, pid, item.quantity, itemUnitPrice item⟩] ∧
        total [item] = itemUnitPrice item) ∧
    total [⟨some "p", none, some 100, none, some 0⟩] = 100 ∧
    orderItems 5 ["p"] [⟨some "p", none, some 100, none, some 0⟩] =
      [⟨5, "p", some 0, 100⟩] ∧
    total [⟨some "p", none, some 100, none, some 0⟩] ≠
      ((orderItems 5 ["p"] [⟨some "p", none, some 100, none, some 0⟩]).map
        (fun l => l.price * l.quantity.getD 0)).sum := by
  refine ⟨?_, by decide, by decide, by decide⟩
  intro oid catalog item pid hres hmem hq
  constructor
  · unfold orderItems
    simp [List.filterMap, mkOrderLine, hres, hmem]
  · rw [total_eq_map_sum]
    rcases hq with h | h <;> simp [itemQty, jsOrNum, h]

/-- Claim C10 witness: the general conjunct applied at a concrete
zero-quantity candidate that survives reconciliation. -/
theorem claim_C10_witness :
    orderItems 2 ["q"] [⟨some "q", none, some 7, none, some 0⟩] =
      [⟨2, "q", some 0, 7⟩] ∧
    total [⟨some "q", none, some 7, none, some 0⟩] =
      itemUnitPrice ⟨some "q", none, some 7, none, some 0⟩ :=
  claim_C10.1 2 ["q"] ⟨some "q", none, some 7, none, some 0⟩ "q"
    (by decide) (by decide) (Or.inr rfl)

end Vastravedh
